import Mathlib

/-!
Verification development for the `jetfuelburn` package.

The repository snapshot contains the package's documentation (tutorial
notebook, interactive documentation pages, changelog, build metadata) but not
the Python modules themselves.  The definitions below are therefore shallow
embeddings reconstructed from the specification and pinned against the
concrete input/output examples recorded in the repository's own
documentation (`docs/tutorial.ipynb` and the interactive documentation
pages), which were produced by executing the package.

Exact rational arithmetic (`ℚ`) replaces Python floats wherever the
computation is a rational function of its inputs; `ℝ` with `Real.exp`,
`Real.sqrt` and real powers is used for the transcendental formulas.
Fallible calls are modelled with `Except`: a Python exception (domain
error, `ZeroDivisionError`, dimensionality error, unknown-aircraft error)
corresponds to an `Except.error` value.
-/

set_option autoImplicit false

namespace JetFuelBurn

/-! ### Cabin-class footprint allocation (`jetfuelburn.aux.allocation`)

`footprint_allocation_by_area` apportions a flight's total fuel burn over the
four cabin classes by seat-area share and converts each class total to a
per-passenger figure.  The documented example
(`fuel_per_flight = 14000 kg`, eco: size 1 / 154 seats / load 0.9,
business: size 1.5 / 24 seats / load 0.5, other classes zero) returns
`(81.871345 kg, 0, 221.052632 kg, 0)`: a class with zero seats yields the
plain number `0`, a class with seats yields a kilogram `Quantity` whose
magnitude is `fuel · (size·seats)/Σ(size·seats) / (seats·load)`. -/

/-- One component of the allocation result.  The documented output mixes
plain numbers (for zero-seat classes) with kilogram-dimensioned `pint`
quantities, which this type keeps apart. -/
inductive FuelShare where
  | plain (x : ℚ)
  | mass (kg : ℚ)
  deriving DecidableEq

/-- Numeric magnitude of a `FuelShare`, in kilograms for the `mass` case. -/
def FuelShare.val : FuelShare → ℚ
  | .plain x => x
  | .mass x => x

/-- Error outcomes of the allocation call: the spec-mandated domain error for
the all-classes-empty configuration, and Python's `ZeroDivisionError` for a
vanishing denominator. -/
inductive AllocationError where
  | degenerateAllocation
  | divisionByZero
  deriving DecidableEq

/-- Total weighted seat area `Σ size_factor · seats` over the four classes,
the normalisation constant of the area-based allocation. -/
def total_weighted_area (size_factor_eco size_factor_premiumeco
    size_factor_business size_factor_first seats_eco seats_premiumeco
    seats_business seats_first : ℚ) : ℚ :=
  size_factor_eco * seats_eco + size_factor_premiumeco * seats_premiumeco +
    size_factor_business * seats_business + size_factor_first * seats_first

/-- Per-class result: a zero-seat class contributes the plain number `0`;
otherwise the class's area share of the total fuel is divided by its
occupied seats (`seats · load_factor`), giving fuel per passenger. -/
def classShare (fuel_per_flight size_factor seats load_factor area : ℚ) :
    FuelShare :=
  if seats = 0 then .plain 0
  else .mass (fuel_per_flight * (size_factor * seats) / area /
    (seats * load_factor))

/-- Modelled from the spec: the Python module `jetfuelburn/aux/allocation.py`
is absent from the snapshot.  Reconstructed from spec §4.6/§6 and pinned to
the documented example output `(81.871345 kg, 0, 221.052632 kg, 0)` of
`docs/tutorial.ipynb`, which forces area shares `size·seats` (load factors
excluded) and per-passenger (not class-total) results.  The all-zero-seats
guard is the spec-mandated domain error; a vanishing denominator elsewhere
is Python's `ZeroDivisionError`. -/
def footprint_allocation_by_area (fuel_per_flight size_factor_eco
    size_factor_premiumeco size_factor_business size_factor_first seats_eco
    seats_premiumeco seats_business seats_first load_factor_eco
    load_factor_premiumeco load_factor_business load_factor_first : ℚ) :
    Except AllocationError (FuelShare × FuelShare × FuelShare × FuelShare) :=
  if seats_eco = 0 ∧ seats_premiumeco = 0 ∧ seats_business = 0 ∧
      seats_first = 0 then
    .error .degenerateAllocation
  else if total_weighted_area size_factor_eco size_factor_premiumeco
      size_factor_business size_factor_first seats_eco seats_premiumeco
      seats_business seats_first = 0 then
    .error .divisionByZero
  else if (seats_eco ≠ 0 ∧ seats_eco * load_factor_eco = 0) ∨
      (seats_premiumeco ≠ 0 ∧ seats_premiumeco * load_factor_premiumeco = 0) ∨
      (seats_business ≠ 0 ∧ seats_business * load_factor_business = 0) ∨
      (seats_first ≠ 0 ∧ seats_first * load_factor_first = 0) then
    .error .divisionByZero
  else
    .ok
      (classShare fuel_per_flight size_factor_eco seats_eco load_factor_eco
        (total_weighted_area size_factor_eco size_factor_premiumeco
          size_factor_business size_factor_first seats_eco seats_premiumeco
          seats_business seats_first),
      classShare fuel_per_flight size_factor_premiumeco seats_premiumeco
        load_factor_premiumeco
        (total_weighted_area size_factor_eco size_factor_premiumeco
          size_factor_business size_factor_first seats_eco seats_premiumeco
          seats_business seats_first),
      classShare fuel_per_flight size_factor_business seats_business
        load_factor_business
        (total_weighted_area size_factor_eco size_factor_premiumeco
          size_factor_business size_factor_first seats_eco seats_premiumeco
          seats_business seats_first),
      classShare fuel_per_flight size_factor_first seats_first
        load_factor_first
        (total_weighted_area size_factor_eco size_factor_premiumeco
          size_factor_business size_factor_first seats_eco seats_premiumeco
          seats_business seats_first))

/-! ### Payload/range diagram model (`jetfuelburn.diagrams`)

`calculate_fuel_consumption_based_on_payload_range` reads fuel and payload
off the three linear segments of the payload/range diagram.  Segment `A→B`
(payload constant at the structural maximum `payload_point_B`, fuel
interpolated linearly from `0` at `range_point_A` to `mtow - oew -
payload_point_B` at `range_point_B`) is pinned by the documented example,
which returns `(23527.2045 kg, 54000 kg)` at `d = 2000 nmi`.  Segment `B→C`
trades payload for fuel at constant `mtow`; segment `C→D` is
fuel-volume-limited with payload falling to zero at `range_point_D`. -/

/-- Error outcome for a requested distance outside the diagram envelope. -/
inductive PayloadRangeError where
  | outOfEnvelope
  deriving DecidableEq

/-- Payload on segment `A→B`: constant at the structural maximum. -/
def payload_segment_AB (payload_point_B d : ℚ) : ℚ :=
  payload_point_B

/-- Fuel on segment `A→B`: linear from `0` at `range_point_A` up to the
maximum-take-off fuel load `mtow - oew - payload_point_B` at
`range_point_B`. -/
def fuel_segment_AB (oew mtow range_point_A payload_point_B range_point_B
    d : ℚ) : ℚ :=
  (mtow - oew - payload_point_B) * (d - range_point_A) /
    (range_point_B - range_point_A)

/-- Payload on segment `B→C`: linear interpolation between
`payload_point_B` and `payload_point_C`. -/
def payload_segment_BC (payload_point_B range_point_B payload_point_C
    range_point_C d : ℚ) : ℚ :=
  payload_point_B + (payload_point_C - payload_point_B) *
    (d - range_point_B) / (range_point_C - range_point_B)

/-- Fuel on segment `B→C`: take-off mass stays at `mtow`, so fuel is the
complement of the interpolated payload. -/
def fuel_segment_BC (oew mtow payload_point_B range_point_B payload_point_C
    range_point_C d : ℚ) : ℚ :=
  mtow - oew - payload_segment_BC payload_point_B range_point_B
    payload_point_C range_point_C d

/-- Payload on segment `C→D`: linear from `payload_point_C` down to zero at
`range_point_D`. -/
def payload_segment_CD (payload_point_C range_point_C range_point_D d : ℚ) :
    ℚ :=
  payload_point_C * (range_point_D - d) / (range_point_D - range_point_C)

/-- Fuel on segment `C→D`: capped at the maximum fuel volume reached at
point `C`. -/
def fuel_segment_CD (oew mtow payload_point_C : ℚ) : ℚ :=
  mtow - oew - payload_point_C

/-- Modelled from the spec: the Python module `jetfuelburn/diagrams.py` is
absent from the snapshot.  Reconstructed from spec §4.4 and pinned to the
documented example `(23527.2045 kg, 54000 kg)` of `docs/tutorial.ipynb`.
Returns the pair `(fuel mass, payload mass)`; a distance beyond
`range_point_D` is out of the diagram envelope and signalled as an error. -/
def calculate_fuel_consumption_based_on_payload_range (d oew mtow
    range_point_A payload_point_B range_point_B payload_point_C
    range_point_C range_point_D : ℚ) :
    Except PayloadRangeError (ℚ × ℚ) :=
  if d ≤ range_point_B then
    .ok (fuel_segment_AB oew mtow range_point_A payload_point_B
      range_point_B d, payload_segment_AB payload_point_B d)
  else if d ≤ range_point_C then
    .ok (fuel_segment_BC oew mtow payload_point_B range_point_B
      payload_point_C range_point_C d,
      payload_segment_BC payload_point_B range_point_B payload_point_C
        range_point_C d)
  else if d ≤ range_point_D then
    .ok (fuel_segment_CD oew mtow payload_point_C,
      payload_segment_CD payload_point_C range_point_C range_point_D d)
  else
    .error .outOfEnvelope

/-! ### Breguet range equation (`jetfuelburn.breguet`)

`calculate_fuel_consumption_based_on_breguet_range_equation` solves the
Breguet integral for the pre-cruise mass under the climb-cruise schedule:
`m_before = m_after · exp(R·g·TSFC / (V·L/D))`, and returns the cruise fuel
burn `m_before - m_after`.  All arguments are taken here in SI base units
(`R` in m, masses in kg, `v_cruise` in m/s, `TSFC_cruise` in kg/(N·s));
the result is in kg, matching the documented output unit. -/

/-- Breguet cruise fuel burn with the gravity constant `g` as an explicit
parameter:
`m_after_cruise · exp(R·g·TSFC_cruise/(v_cruise·LD)) - m_after_cruise`. -/
noncomputable def breguet_fuel_mass (g R LD m_after_cruise v_cruise
    TSFC_cruise : ℝ) : ℝ :=
  m_after_cruise * Real.exp (R * g * TSFC_cruise / (v_cruise * LD)) -
    m_after_cruise

/-- Modelled from the spec: the Python module `jetfuelburn/breguet.py` is
absent from the snapshot.  Reconstructed from spec §4.3 and pinned to the
documented example output `16699.144206512217 kg` of `docs/tutorial.ipynb`
(for `R = 2000 nmi`, `LD = 18`, `m_after_cruise = 100 t`,
`v_cruise = 800 kph`, `TSFC_cruise = 17 mg/(N·s)`), which forces the
internal gravity constant `9.81` (the spec's stated `9.80665` yields
`≈ 16692.99 kg` on the same input and does not reproduce the documented
value). -/
noncomputable def calculate_fuel_consumption_based_on_breguet_range_equation
    (R LD m_after_cruise v_cruise TSFC_cruise : ℝ) : ℝ :=
  breguet_fuel_mass 9.81 R LD m_after_cruise v_cruise TSFC_cruise

/-! ### Atmospheric physics helpers (`jetfuelburn.aux.physics`)

Modelled from the spec (§4.2): the Python module
`jetfuelburn/aux/physics.py` is absent from the snapshot.  The ISA
temperature model is a linear lapse of `-6.5 K/km` from `15 °C` at sea
level below `11 km` and isothermal `-56.5 °C` above; density follows the
polytropic barometric form below `11 km` and the isothermal exponential
form above; the speed of sound is `sqrt(γ·R·T)` with `γ = 1.4` and
`R = 287.05 J/(kg·K)`; true airspeed is Mach number times speed of sound.
Altitudes in m, temperatures in °C, density in kg/m³, velocity in km/h
(the documented output unit of `_calculate_aircraft_velocity`). -/

/-- ISA temperature in degrees Celsius at altitude `h` (in m): linear lapse
`15 - 0.0065·h` below 11 km, isothermal `-56.5` above. -/
noncomputable def atmospheric_temperature (h : ℝ) : ℝ :=
  if h < 11000 then 15 - 0.0065 * h else -56.5

/-- Exponent `g/(R·L) - 1` of the polytropic density form of the barometric
formula, with `g = 9.80665 m/s²`, `R = 287.05 J/(kg·K)`,
`L = 0.0065 K/m`. -/
noncomputable def isa_density_exponent : ℝ :=
  9.80665 / (287.05 * 0.0065) - 1

/-- ISA air density in kg/m³ at altitude `h` (in m): polytropic form
`ρ₀ · (T/T₀) ^ (g/(R·L) - 1)` below 11 km, isothermal exponential decay
from the tropopause value above. -/
noncomputable def atmospheric_density (h : ℝ) : ℝ :=
  if h < 11000 then
    1.225 * ((atmospheric_temperature h + 273.15) / 288.15) ^
      isa_density_exponent
  else
    (1.225 * ((216.65 : ℝ) / 288.15) ^ isa_density_exponent) *
      Real.exp (-(9.80665 * (h - 11000)) / (287.05 * 216.65))

/-- Speed of sound in m/s at altitude `h`: `sqrt(γ·R·T)` with `γ = 1.4`,
`R = 287.05 J/(kg·K)` and `T` the ISA temperature in kelvin. -/
noncomputable def speed_of_sound (h : ℝ) : ℝ :=
  Real.sqrt (1.4 * 287.05 * (atmospheric_temperature h + 273.15))

/-- `_calculate_atmospheric_conditions`: returns the pair
`(density in kg/m³, temperature in °C)` at the given altitude, matching the
documented output order. -/
noncomputable def _calculate_atmospheric_conditions (altitude : ℝ) :
    ℝ × ℝ :=
  (atmospheric_density altitude, atmospheric_temperature altitude)

/-- `_calculate_aircraft_velocity`: true airspeed in km/h from Mach number
and altitude, `V = M · a(h)` converted from m/s by the factor `3.6`. -/
noncomputable def _calculate_aircraft_velocity (mach_number altitude : ℝ) :
    ℝ :=
  mach_number * speed_of_sound altitude * 3.6

/-! ### Quantity/dimension layer

Modelled from the spec (§4.1, §7): every public calculation receives
`pint` quantities and must first assert that each input carries the
dimension the formula expects, signalling a dimensionality error naming the
offending parameter together with the expected and actual dimensions before
any arithmetic is performed.  A dimension is recorded by its integer
exponents over the (mass, length, time) base. -/

/-- A physical dimension as exponents of the (mass, length, time) base. -/
structure Dimension where
  mass : ℤ
  length : ℤ
  time : ℤ
  deriving DecidableEq

/-- The mass dimension `[mass]`. -/
def massDim : Dimension := ⟨1, 0, 0⟩

/-- The length dimension `[length]`. -/
def lengthDim : Dimension := ⟨0, 1, 0⟩

/-- The velocity dimension `[length]/[time]`. -/
def velocityDim : Dimension := ⟨0, 1, -1⟩

/-- The dimension of thrust-specific fuel consumption, `kg/(N·s) =
[time]/[length]`. -/
def tsfcDim : Dimension := ⟨0, -1, 1⟩

/-- A `pint`-style quantity: a magnitude (here already reduced to SI base
units) tagged with its dimension. -/
structure Quantity where
  mag : ℝ
  dim : Dimension

/-- The parameters of the Breguet range-equation function, for naming the
offender in a dimensionality error. -/
inductive BreguetParam where
  | R
  | LD
  | m_after_cruise
  | v_cruise
  | TSFC_cruise
  deriving DecidableEq

/-- A dimensionality error: the offending parameter, the dimension the
formula expects there, and the dimension actually supplied. -/
structure DimensionalityError where
  param : BreguetParam
  expected : Dimension
  actual : Dimension
  deriving DecidableEq

/-- Modelled from the spec: dimension-validating wrapper of the Breguet
function (the absent Python code performs these checks through `pint`).
Each quantity argument is checked against the formula's required dimension
in signature order; the first mismatch is reported, naming the parameter
and the expected and actual dimensions, before the arithmetic in the
final branch is reached. -/
noncomputable def breguet_range_equation_checked (R : Quantity) (LD : ℝ)
    (m_after_cruise v_cruise TSFC_cruise : Quantity) :
    Except DimensionalityError ℝ :=
  if R.dim ≠ lengthDim then
    .error ⟨.R, lengthDim, R.dim⟩
  else if m_after_cruise.dim ≠ massDim then
    .error ⟨.m_after_cruise, massDim, m_after_cruise.dim⟩
  else if v_cruise.dim ≠ velocityDim then
    .error ⟨.v_cruise, velocityDim, v_cruise.dim⟩
  else if TSFC_cruise.dim ≠ tsfcDim then
    .error ⟨.TSFC_cruise, tsfcDim, TSFC_cruise.dim⟩
  else
    .ok (calculate_fuel_consumption_based_on_breguet_range_equation R.mag LD
      m_after_cruise.mag v_cruise.mag TSFC_cruise.mag)

/-! ### Reduced-order regression models (`jetfuelburn.reducedorder`)

Modelled from the spec (§4.5): each published model is a variant over a
common capability set, owning an immutable reference table keyed by
aircraft identifier, with `available_aircraft` listing the keys and
`calculate_fuel_consumption` looking the key up; an unknown key is a hard
error carrying the valid set.  The regression-coefficient tables themselves
are bundled data files absent from the snapshot, so records hold abstract
polynomial coefficients evaluated as `a·R² + b·R + c·PL + k`. -/

/-- One aircraft performance record: regression coefficients of a
reduced-order fuel burn model. -/
structure AircraftRecord where
  coeffRangeSq : ℚ
  coeffRange : ℚ
  coeffPayload : ℚ
  coeffConst : ℚ
  deriving DecidableEq

/-- A reduced-order model: an immutable reference table of aircraft
records keyed by aircraft identifier. -/
structure ReducedOrderModel where
  table : List (String × AircraftRecord)

/-- Error outcome of a reduced-order lookup: the unknown key together with
the full set of valid identifiers. -/
inductive ReducedOrderError where
  | unknownAircraft (acft : String) (valid : List String)
  deriving DecidableEq

/-- The list of aircraft identifiers a model supports, in table order. -/
def ReducedOrderModel.available_aircraft (m : ReducedOrderModel) :
    List String :=
  m.table.map (fun p => p.1)

/-- First record stored under the given identifier, if any. -/
def lookupAircraft : List (String × AircraftRecord) → String →
    Option AircraftRecord
  | [], _ => none
  | (k, r) :: rest, acft => if k = acft then some r else
      lookupAircraft rest acft

/-- Fuel consumption of a reduced-order model: resolve the aircraft
identifier in the reference table, then evaluate the regression polynomial
at range `R` and payload `PL`; an unknown identifier is a hard error
carrying the full valid set. -/
def ReducedOrderModel.calculate_fuel_consumption (m : ReducedOrderModel)
    (acft : String) (R PL : ℚ) : Except ReducedOrderError ℚ :=
  match lookupAircraft m.table acft with
  | none => .error (.unknownAircraft acft m.available_aircraft)
  | some r => .ok (r.coeffRangeSq * R ^ 2 + r.coeffRange * R +
      r.coeffPayload * PL + r.coeffConst)

/-- Illustrative reduced-order model instance with the first identifiers of
the documented `yanto_etal.available_aircraft()` listing.  The regression
coefficients are placeholders: the published coefficient data files of the
package are not part of the snapshot, and no claim depends on their
values. -/
def yanto_etal_demo : ReducedOrderModel :=
  ⟨[("A318", ⟨0, 2, 1, 100⟩), ("A319", ⟨0, 3, 1, 120⟩),
    ("A321", ⟨0, 4, 2, 150⟩)]⟩

/-! ## Helper lemmas -/

/-- A lookup misses exactly when the identifier is not among the table
keys. -/
theorem lookupAircraft_eq_none_iff (table : List (String × AircraftRecord))
    (acft : String) :
    lookupAircraft table acft = none ↔
      acft ∉ table.map (fun p => p.1) := by
  induction table with
  | nil => simp [lookupAircraft]
  | cons hd tl ih =>
      obtain ⟨k, r⟩ := hd
      by_cases hk : k = acft
      · subst hk
        simp [lookupAircraft]
      · simp [lookupAircraft, hk, ih, Ne.symm hk]

/-- With duplicate-free keys, a key occurring in the table has exactly one
record. -/
theorem mem_table_unique_of_nodup (table : List (String × AircraftRecord))
    (hnodup : (table.map (fun p => p.1)).Nodup) (acft : String)
    (hmem : acft ∈ table.map (fun p => p.1)) :
    ∃! r : AircraftRecord, (acft, r) ∈ table := by
  induction table with
  | nil => simp at hmem
  | cons hd tl ih =>
      obtain ⟨k, r⟩ := hd
      simp only [List.map_cons, List.nodup_cons] at hnodup
      simp only [List.map_cons, List.mem_cons] at hmem
      rcases hmem with heq | htl
      · subst heq
        refine ⟨r, List.mem_cons_self _ _, ?_⟩
        intro r' hr'
        rcases List.mem_cons.mp hr' with h | h
        · exact (by simpa using h : r' = r)
        · exact absurd (List.mem_map.mpr ⟨(acft, r'), h, rfl⟩) hnodup.1
      · have hne : k ≠ acft := by
          rintro rfl
          exact hnodup.1 htl
        obtain ⟨r', hr', huniq⟩ := ih hnodup.2 htl
        refine ⟨r', List.mem_cons_of_mem _ hr', ?_⟩
        intro r'' hr''
        rcases List.mem_cons.mp hr'' with h | h
        · exact absurd (congrArg Prod.fst h).symm hne
        · exact huniq r'' h

/-- Sanity check: the documented allocation example reproduces the
published per-passenger values `14000/171 ≈ 81.871345` kg (eco) and
`4200/19 ≈ 221.052632` kg (business). -/
theorem allocation_documented_example :
    footprint_allocation_by_area 14000 1 0 (3/2) 0 154 0 24 0 (9/10) 0
      (1/2) 0 =
      .ok (.mass (14000/171), .plain 0, .mass (4200/19), .plain 0) := by
  norm_num [footprint_allocation_by_area, total_weighted_area, classShare]

/-- Sanity check: the documented payload/range example (`d = 2000 nmi`,
masses in kg) returns fuel `12540000/533 ≈ 23527.2045` kg and payload
`54000` kg. -/
theorem payload_range_documented_example :
    calculate_fuel_consumption_based_on_payload_range 2000 142400 280000
      500 54000 5830 25000 8575 9620 = .ok (12540000/533, 54000) := by
  norm_num [calculate_fuel_consumption_based_on_payload_range,
    fuel_segment_AB, payload_segment_AB]

/-- Multiplying a class's per-passenger share by its occupied seats
recovers the class's area share of the total fuel, provided an occupied
class has a nonzero load factor. -/
theorem classShare_val_mul (fuel s n l area : ℚ) (h : n = 0 ∨ l ≠ 0) :
    (classShare fuel s n l area).val * (n * l) = fuel * (s * n) / area := by
  rcases eq_or_ne n 0 with rfl | hn
  · simp [classShare, FuelShare.val]
  · have hl : l ≠ 0 := h.resolve_left hn
    rw [classShare, if_neg hn]
    exact div_mul_cancel₀ _ (mul_ne_zero hn hl)

/-! ## Claim theorems -/

/-- C1 (counterexample): at the documented valid configuration (all four
classes supplied, nonzero seats in eco and business, non-negative size and
load factors) the four fuel masses returned by
`footprint_allocation_by_area` sum to `14000/171 + 4200/19 ≈ 302.92` kg,
not to the input `fuel_per_flight = 14000` kg: the returned values are
per-passenger shares, so their plain sum does not conserve the total. -/
theorem allocation_plain_sum_not_conserved :
    footprint_allocation_by_area 14000 1 0 (3/2) 0 154 0 24 0 (9/10) 0
        (1/2) 0 =
      .ok (.mass (14000/171), .plain 0, .mass (4200/19), .plain 0) ∧
    (14000/171 : ℚ) + 0 + 4200/19 + 0 ≠ 14000 := by
  constructor
  · norm_num [footprint_allocation_by_area, total_weighted_area, classShare]
  · norm_num

/-- C1 (amended): for every valid cabin configuration (all four classes
supplied, nonzero total weighted seat area, and every class either empty or
with nonzero load factor), the four per-passenger fuel masses returned by
`footprint_allocation_by_area`, each weighted by its class's occupied seats
(`seats · load_factor`), sum exactly to the input `fuel_per_flight`. -/
theorem allocation_weighted_sum_conserves_fuel
    (fuel s_e s_p s_b s_f n_e n_p n_b n_f l_e l_p l_b l_f : ℚ)
    (hW : total_weighted_area s_e s_p s_b s_f n_e n_p n_b n_f ≠ 0)
    (h_e : n_e = 0 ∨ l_e ≠ 0) (h_p : n_p = 0 ∨ l_p ≠ 0)
    (h_b : n_b = 0 ∨ l_b ≠ 0) (h_f : n_f = 0 ∨ l_f ≠ 0) :
    ∃ q_e q_p q_b q_f : FuelShare,
      footprint_allocation_by_area fuel s_e s_p s_b s_f n_e n_p n_b n_f
          l_e l_p l_b l_f = .ok (q_e, q_p, q_b, q_f) ∧
      q_e.val * (n_e * l_e) + q_p.val * (n_p * l_p) +
        q_b.val * (n_b * l_b) + q_f.val * (n_f * l_f) = fuel := by
  have hnz : ¬(n_e = 0 ∧ n_p = 0 ∧ n_b = 0 ∧ n_f = 0) := by
    rintro ⟨rfl, rfl, rfl, rfl⟩
    exact hW (by simp [total_weighted_area])
  have hchk : ¬((n_e ≠ 0 ∧ n_e * l_e = 0) ∨ (n_p ≠ 0 ∧ n_p * l_p = 0) ∨
      (n_b ≠ 0 ∧ n_b * l_b = 0) ∨ (n_f ≠ 0 ∧ n_f * l_f = 0)) := by
    push_neg
    refine ⟨fun hn => ?_, fun hn => ?_, fun hn => ?_, fun hn => ?_⟩ <;>
      [skip; skip; skip; skip] <;>
      first
      | exact mul_ne_zero hn (h_e.resolve_left hn)
      | exact mul_ne_zero hn (h_p.resolve_left hn)
      | exact mul_ne_zero hn (h_b.resolve_left hn)
      | exact mul_ne_zero hn (h_f.resolve_left hn)
  rw [footprint_allocation_by_area, if_neg hnz, if_neg hW, if_neg hchk]
  refine ⟨_, _, _, _, rfl, ?_⟩
  rw [classShare_val_mul _ _ _ _ _ h_e, classShare_val_mul _ _ _ _ _ h_p,
    classShare_val_mul _ _ _ _ _ h_b, classShare_val_mul _ _ _ _ _ h_f]
  rw [div_add_div_same, div_add_div_same, div_add_div_same]
  rw [show fuel * (s_e * n_e) + fuel * (s_p * n_p) + fuel * (s_b * n_b) +
      fuel * (s_f * n_f) =
      fuel * total_weighted_area s_e s_p s_b s_f n_e n_p n_b n_f by
    rw [total_weighted_area]; ring]
  rw [mul_div_assoc, div_self hW, mul_one]

/-- C1 (witness): the amended conservation theorem applied to a concrete
single-class configuration. -/
theorem allocation_weighted_sum_conserves_fuel_witness :
    ∃ q_e q_p q_b q_f : FuelShare,
      footprint_allocation_by_area 100 1 0 0 0 10 0 0 0 (1/2) 0 0 0 =
        .ok (q_e, q_p, q_b, q_f) ∧
      q_e.val * (10 * (1/2)) + q_p.val * (0 * 0) + q_b.val * (0 * 0) +
        q_f.val * (0 * 0) = 100 :=
  allocation_weighted_sum_conserves_fuel 100 1 0 0 0 10 0 0 0 (1/2) 0 0 0
    (by norm_num [total_weighted_area]) (Or.inr (by norm_num))
    (Or.inl rfl) (Or.inl rfl) (Or.inl rfl)

/-- C5: if every one of the four cabin classes has zero seats,
`footprint_allocation_by_area` signals the degenerate-allocation domain
error (for any fuel, size factors and load factors), rather than dividing
by zero or returning an all-zero tuple. -/
theorem allocation_all_zero_seats_domain_error
    (fuel s_e s_p s_b s_f l_e l_p l_b l_f : ℚ) :
    footprint_allocation_by_area fuel s_e s_p s_b s_f 0 0 0 0
        l_e l_p l_b l_f = .error .degenerateAllocation := by
  rw [footprint_allocation_by_area, if_pos ⟨rfl, rfl, rfl, rfl⟩]

/-- C9: at the documented configuration (`fuel_per_flight = 14000` kg, eco
size 1 / 154 seats / load 0.9, business size 1.5 / 24 seats / load 0.5,
other classes zero) `footprint_allocation_by_area` returns the
per-passenger masses `(14000/171 ≈ 81.871345 kg, 0, 4200/19 ≈ 221.052632
kg, 0)`, and multiplying each class's value by its occupied seats
(`seats · load_factor`) and summing over the four classes recovers
`fuel_per_flight` exactly. -/
theorem allocation_per_passenger_semantics :
    footprint_allocation_by_area 14000 1 0 (3/2) 0 154 0 24 0 (9/10) 0
        (1/2) 0 =
      .ok (.mass (14000/171), .plain 0, .mass (4200/19), .plain 0) ∧
    (81871345/1000000 : ℚ) < 14000/171 ∧
    (14000/171 : ℚ) < 81871346/1000000 ∧
    (221052631/1000000 : ℚ) < 4200/19 ∧
    (4200/19 : ℚ) < 221052632/1000000 ∧
    (FuelShare.mass (14000/171)).val * (154 * (9/10)) +
      (FuelShare.plain 0).val * (0 * 0) +
      (FuelShare.mass (4200/19)).val * (24 * (1/2)) +
      (FuelShare.plain 0).val * (0 * 0) = 14000 := by
  refine ⟨?_, by norm_num, by norm_num, by norm_num, by norm_num, ?_⟩
  · norm_num [footprint_allocation_by_area, total_weighted_area, classShare]
  · norm_num [FuelShare.val]

/-- C10 (counterexample): a configuration in which some but not all classes
have zero seats (eco has one seat, the rest none) while all size factors
vanish makes the total weighted area zero, so the call ends in a division
error instead of completing with per-class values. -/
theorem allocation_zero_area_division_error :
    footprint_allocation_by_area 100 0 0 0 0 1 0 0 0 1 0 0 0 =
      .error .divisionByZero := by
  norm_num [footprint_allocation_by_area, total_weighted_area]

/-- C10 (amended): for every configuration in which some class has zero
seats (but not all do), provided the total weighted seat area is nonzero
and every class with seats has a nonzero load factor, the call completes
without a division error, returning the plain number `0` for each
zero-seat class and a kilogram-dimensioned quantity for each class with
seats. -/
theorem allocation_share_kinds
    (fuel s_e s_p s_b s_f n_e n_p n_b n_f l_e l_p l_b l_f : ℚ)
    (hW : total_weighted_area s_e s_p s_b s_f n_e n_p n_b n_f ≠ 0)
    (h_e : n_e = 0 ∨ l_e ≠ 0) (h_p : n_p = 0 ∨ l_p ≠ 0)
    (h_b : n_b = 0 ∨ l_b ≠ 0) (h_f : n_f = 0 ∨ l_f ≠ 0)
    (hsome : n_e = 0 ∨ n_p = 0 ∨ n_b = 0 ∨ n_f = 0) :
    ∃ q_e q_p q_b q_f : FuelShare,
      footprint_allocation_by_area fuel s_e s_p s_b s_f n_e n_p n_b n_f
          l_e l_p l_b l_f = .ok (q_e, q_p, q_b, q_f) ∧
      (n_e = 0 → q_e = .plain 0) ∧ (n_e ≠ 0 → ∃ x, q_e = .mass x) ∧
      (n_p = 0 → q_p = .plain 0) ∧ (n_p ≠ 0 → ∃ x, q_p = .mass x) ∧
      (n_b = 0 → q_b = .plain 0) ∧ (n_b ≠ 0 → ∃ x, q_b = .mass x) ∧
      (n_f = 0 → q_f = .plain 0) ∧ (n_f ≠ 0 → ∃ x, q_f = .mass x) := by
  have hnz : ¬(n_e = 0 ∧ n_p = 0 ∧ n_b = 0 ∧ n_f = 0) := by
    rintro ⟨rfl, rfl, rfl, rfl⟩
    exact hW (by simp [total_weighted_area])
  have hchk : ¬((n_e ≠ 0 ∧ n_e * l_e = 0) ∨ (n_p ≠ 0 ∧ n_p * l_p = 0) ∨
      (n_b ≠ 0 ∧ n_b * l_b = 0) ∨ (n_f ≠ 0 ∧ n_f * l_f = 0)) := by
    push_neg
    exact ⟨fun hn => mul_ne_zero hn (h_e.resolve_left hn),
      fun hn => mul_ne_zero hn (h_p.resolve_left hn),
      fun hn => mul_ne_zero hn (h_b.resolve_left hn),
      fun hn => mul_ne_zero hn (h_f.resolve_left hn)⟩
  rw [footprint_allocation_by_area, if_neg hnz, if_neg hW, if_neg hchk]
  refine ⟨_, _, _, _, rfl, ?_, ?_, ?_, ?_, ?_, ?_, ?_, ?_⟩ <;>
    intro hn <;> simp [classShare, hn]

/-- C10 (witness): the amended statement applied to a concrete mixed
configuration with empty premium-economy and first classes. -/
theorem allocation_share_kinds_witness :
    ∃ q_e q_p q_b q_f : FuelShare,
      footprint_allocation_by_area 200 1 1 1 1 2 0 4 0 1 0 (1/2) 0 =
        .ok (q_e, q_p, q_b, q_f) ∧
      ((2:ℚ) = 0 → q_e = .plain 0) ∧ ((2:ℚ) ≠ 0 → ∃ x, q_e = .mass x) ∧
      ((0:ℚ) = 0 → q_p = .plain 0) ∧ ((0:ℚ) ≠ 0 → ∃ x, q_p = .mass x) ∧
      ((4:ℚ) = 0 → q_b = .plain 0) ∧ ((4:ℚ) ≠ 0 → ∃ x, q_b = .mass x) ∧
      ((0:ℚ) = 0 → q_f = .plain 0) ∧ ((0:ℚ) ≠ 0 → ∃ x, q_f = .mass x) :=
  allocation_share_kinds 200 1 1 1 1 2 0 4 0 1 0 (1/2) 0
    (by norm_num [total_weighted_area]) (Or.inr (by norm_num))
    (Or.inl rfl) (Or.inr (by norm_num)) (Or.inl rfl)
    (Or.inr (Or.inl rfl))

/-- C6: the payload/range diagram is continuous at the segment boundary
`range_point_B`: the `A→B` segment formula and the `B→C` segment formula
evaluated at exactly `d = range_point_B` yield the same payload value, and
the full function takes the `A→B` branch there. -/
theorem payload_range_continuous_at_B
    (oew mtow range_point_A payload_point_B range_point_B payload_point_C
      range_point_C range_point_D : ℚ) :
    payload_segment_AB payload_point_B range_point_B =
      payload_segment_BC payload_point_B range_point_B payload_point_C
        range_point_C range_point_B ∧
    calculate_fuel_consumption_based_on_payload_range range_point_B oew
        mtow range_point_A payload_point_B range_point_B payload_point_C
        range_point_C range_point_D =
      .ok (fuel_segment_AB oew mtow range_point_A payload_point_B
          range_point_B range_point_B,
        payload_segment_AB payload_point_B range_point_B) := by
  constructor
  · simp [payload_segment_AB, payload_segment_BC]
  · rw [calculate_fuel_consumption_based_on_payload_range, if_pos le_rfl]

/-- C8: for every reduced-order model with duplicate-free table keys,
calling `calculate_fuel_consumption` with an identifier not present in the
reference table is a hard error carrying the full set of valid
identifiers, and every identifier returned by `available_aircraft`
resolves to exactly one record of the table. -/
theorem reduced_order_lookup_sound (m : ReducedOrderModel) (acft : String)
    (R PL : ℚ) (hnodup : m.available_aircraft.Nodup) :
    (acft ∉ m.available_aircraft →
      m.calculate_fuel_consumption acft R PL =
        .error (.unknownAircraft acft m.available_aircraft)) ∧
    (acft ∈ m.available_aircraft →
      ∃! r : AircraftRecord, (acft, r) ∈ m.table) := by
  constructor
  · intro hmem
    have hnone : lookupAircraft m.table acft = none :=
      (lookupAircraft_eq_none_iff m.table acft).mpr hmem
    rw [ReducedOrderModel.calculate_fuel_consumption, hnone]
  · intro hmem
    exact mem_table_unique_of_nodup m.table hnodup acft hmem

/-- C8 (witness): the lookup theorem applied to a concrete model instance,
for one unknown and one known identifier. -/
theorem reduced_order_lookup_sound_witness :
    yanto_etal_demo.calculate_fuel_consumption ("B999") 1 1 =
      .error (.unknownAircraft ("B999")
        (["A318", "A319", "A321"])) ∧
    ∃! r : AircraftRecord, (("A318" : String), r) ∈ yanto_etal_demo.table :=
  ⟨(reduced_order_lookup_sound yanto_etal_demo ("B999") 1 1
      (by decide)).1 (by decide),
    (reduced_order_lookup_sound yanto_etal_demo ("A318") 1 1
      (by decide)).2 (by decide)⟩

/-- C4: calling the dimension-checked Breguet function with a
velocity-dimensioned quantity in the mass slot yields a dimensionality
error naming the offending parameter `m_after_cruise` together with the
expected dimension (mass) and the actual dimension (velocity), for all
magnitudes and all remaining arguments — i.e. before any arithmetic. -/
theorem breguet_dimension_mismatch_reported
    (R m_after_cruise v_cruise TSFC_cruise : Quantity) (LD : ℝ)
    (hR : R.dim = lengthDim) (hm : m_after_cruise.dim = velocityDim) :
    breguet_range_equation_checked R LD m_after_cruise v_cruise
        TSFC_cruise =
      .error ⟨.m_after_cruise, massDim, velocityDim⟩ := by
  rw [breguet_range_equation_checked, if_neg (by simp [hR]),
    if_pos (by rw [hm]; decide), hm]

/-- C4 (witness): the dimension-mismatch theorem applied to concrete
quantities, with a velocity passed where the mass is expected. -/
theorem breguet_dimension_mismatch_reported_witness :
    breguet_range_equation_checked ⟨3704000, lengthDim⟩ 18
        ⟨222, velocityDim⟩ ⟨222, velocityDim⟩ ⟨17/1000000, tsfcDim⟩ =
      .error ⟨.m_after_cruise, massDim, velocityDim⟩ :=
  breguet_dimension_mismatch_reported ⟨3704000, lengthDim⟩
    ⟨222, velocityDim⟩ ⟨222, velocityDim⟩ ⟨17/1000000, tsfcDim⟩ 18 rfl rfl

/-- C2 (counterexample): evaluating the Breguet formula with the claimed
internal gravity constant `9.80665 m/s²` at the documented scenario
(`R = 2000 nmi = 3704000 m`, `LD = 18`, `m_after_cruise = 100000 kg`,
`v_cruise = 800 kph = 2000/9 m/s`, `TSFC_cruise = 17 mg/(N·s) =
17/1000000 kg/(N·s)`) yields less than `16693` kg — not approximately
`16699.14` kg as the documented output requires. -/
theorem breguet_gravity_9_80665_refuted :
    breguet_fuel_mass 9.80665 3704000 18 100000 (2000/9) (17/1000000) <
      16693 := by
  have harg : (3704000:ℝ) * 9.80665 * (17/1000000) / ((2000/9) * 18) =
      1543762843/10000000000 := by norm_num
  have h0 : (0:ℝ) ≤ 1543762843/10000000000 := by norm_num
  have h1 : (1543762843:ℝ)/10000000000 ≤ 1 := by norm_num
  have hup := Real.exp_bound' h0 h1 (show 0 < 7 by norm_num)
  have hkey : Real.exp ((1543762843:ℝ)/10000000000) < 1.16693 := by
    refine lt_of_le_of_lt hup ?_
    simp only [Finset.sum_range_succ, Finset.sum_range_zero]
    norm_num [Nat.factorial]
  rw [breguet_fuel_mass, harg]
  nlinarith [hkey]

/-- C2 (amended): the Breguet range-equation function computes the
pre-cruise mass as `m_after_cruise · exp(R·g·TSFC/(V·L/D))` with `g` fixed
internally at `9.81 m/s²` and returns `m_before - m_after`; at the
documented scenario it returns a value strictly between `16699.1` and
`16699.2` kg, i.e. approximately `16699.14` kg. -/
theorem breguet_formula_and_documented_value :
    (∀ R LD m_after_cruise v_cruise TSFC_cruise : ℝ,
      calculate_fuel_consumption_based_on_breguet_range_equation R LD
          m_after_cruise v_cruise TSFC_cruise =
        m_after_cruise *
          Real.exp (R * 9.81 * TSFC_cruise / (v_cruise * LD)) -
          m_after_cruise) ∧
    16699.1 < calculate_fuel_consumption_based_on_breguet_range_equation
      3704000 18 100000 (2000/9) (17/1000000) ∧
    calculate_fuel_consumption_based_on_breguet_range_equation
      3704000 18 100000 (2000/9) (17/1000000) < 16699.2 := by
  have harg : (3704000:ℝ) * 9.81 * (17/1000000) / ((2000/9) * 18) =
      7721451/50000000 := by norm_num
  have h0 : (0:ℝ) ≤ 7721451/50000000 := by norm_num
  have h1 : (7721451:ℝ)/50000000 ≤ 1 := by norm_num
  have hkey_low : (1.166991:ℝ) < Real.exp ((7721451:ℝ)/50000000) := by
    have hlow := Real.sum_le_exp_of_nonneg h0 7
    refine lt_of_lt_of_le ?_ hlow
    simp only [Finset.sum_range_succ, Finset.sum_range_zero]
    norm_num [Nat.factorial]
  have hkey_up : Real.exp ((7721451:ℝ)/50000000) < 1.1669915 := by
    have hup := Real.exp_bound' h0 h1 (show 0 < 7 by norm_num)
    refine lt_of_le_of_lt hup ?_
    simp only [Finset.sum_range_succ, Finset.sum_range_zero]
    norm_num [Nat.factorial]
  refine ⟨fun R LD m_after_cruise v_cruise TSFC_cruise => rfl, ?_, ?_⟩
  · rw [calculate_fuel_consumption_based_on_breguet_range_equation,
      breguet_fuel_mass, harg]
    nlinarith [hkey_low]
  · rw [calculate_fuel_consumption_based_on_breguet_range_equation,
      breguet_fuel_mass, harg]
    nlinarith [hkey_up]

/-- C3: for all positive inputs, the Breguet function returns a strictly
positive fuel mass, and the implied take-off mass
`m_after_cruise + fuel_mass` is strictly increasing in the range `R` with
all other arguments held fixed. -/
theorem breguet_positive_and_monotone
    (R R' LD m_after_cruise v_cruise TSFC_cruise : ℝ)
    (hR : 0 < R) (hLD : 0 < LD) (hm : 0 < m_after_cruise)
    (hv : 0 < v_cruise) (ht : 0 < TSFC_cruise) :
    0 < calculate_fuel_consumption_based_on_breguet_range_equation R LD
        m_after_cruise v_cruise TSFC_cruise ∧
    (R < R' →
      m_after_cruise +
          calculate_fuel_consumption_based_on_breguet_range_equation R LD
            m_after_cruise v_cruise TSFC_cruise <
        m_after_cruise +
          calculate_fuel_consumption_based_on_breguet_range_equation R' LD
            m_after_cruise v_cruise TSFC_cruise) := by
  have hx : 0 < R * 9.81 * TSFC_cruise / (v_cruise * LD) := by positivity
  constructor
  · rw [calculate_fuel_consumption_based_on_breguet_range_equation,
      breguet_fuel_mass]
    have h1 : 1 < Real.exp (R * 9.81 * TSFC_cruise / (v_cruise * LD)) :=
      Real.one_lt_exp_iff.mpr hx
    nlinarith [h1, hm]
  · intro hRR
    rw [calculate_fuel_consumption_based_on_breguet_range_equation,
      calculate_fuel_consumption_based_on_breguet_range_equation,
      breguet_fuel_mass, breguet_fuel_mass]
    have hdenom : 0 < v_cruise * LD := by positivity
    have harg : R * 9.81 * TSFC_cruise / (v_cruise * LD) <
        R' * 9.81 * TSFC_cruise / (v_cruise * LD) := by
      apply div_lt_div_of_pos_right ?_ hdenom
      exact mul_lt_mul_of_pos_right
        (mul_lt_mul_of_pos_right hRR (by norm_num)) ht
    have hexp := Real.exp_lt_exp.mpr harg
    nlinarith [hexp, hm]

/-- C3 (witness): positivity and range-monotonicity at concrete inputs. -/
theorem breguet_positive_and_monotone_witness :
    0 < calculate_fuel_consumption_based_on_breguet_range_equation 1 1 1 1
        1 ∧
    1 + calculate_fuel_consumption_based_on_breguet_range_equation 1 1 1 1
        1 <
      1 + calculate_fuel_consumption_based_on_breguet_range_equation 2 1 1
        1 1 := by
  have h := breguet_positive_and_monotone 1 2 1 1 1 1 one_pos one_pos
    one_pos one_pos one_pos
  exact ⟨h.1, h.2 (by norm_num)⟩

/-- C7: the atmospheric temperature helper is the piecewise ISA model
(linear lapse from 15 °C at -6.5 K/km below 11 km, isothermal -56.5 °C
above); at 10000 m the returned temperature is exactly -50 °C, the
returned density lies strictly between 0.4126 and 0.4128 kg/m³
(approximately 0.4127), and `aircraft_velocity(0.8, 10000 m)` lies
strictly between 862.4 and 862.5 km/h (approximately 862.45). -/
theorem atmosphere_isa_and_documented_values :
    (∀ h : ℝ, h < 11000 →
      atmospheric_temperature h = 15 - 6.5 * h / 1000) ∧
    (∀ h : ℝ, 11000 ≤ h → atmospheric_temperature h = -56.5) ∧
    (_calculate_atmospheric_conditions 10000).2 = -50 ∧
    0.4126 < (_calculate_atmospheric_conditions 10000).1 ∧
    (_calculate_atmospheric_conditions 10000).1 < 0.4128 ∧
    862.4 < _calculate_aircraft_velocity 0.8 10000 ∧
    _calculate_aircraft_velocity 0.8 10000 < 862.5 := by
  have hT : atmospheric_temperature 10000 = -50 := by
    rw [atmospheric_temperature, if_pos (by norm_num)]
    norm_num
  have hr0 : (0:ℝ) < 4463/5763 := by norm_num
  have hr1 : (4463:ℝ)/5763 ≤ 1 := by norm_num
  have hd : atmospheric_density 10000 =
      1.225 * ((4463:ℝ)/5763) ^ isa_density_exponent := by
    rw [atmospheric_density, if_pos (by norm_num), hT]
    norm_num
  have hq1 : (183:ℝ)/43 ≤ isa_density_exponent := by
    rw [isa_density_exponent]
    norm_num
  have hq2 : isa_density_exponent ≤ (166:ℝ)/39 := by
    rw [isa_density_exponent]
    norm_num
  have hmono1 : ((4463:ℝ)/5763) ^ isa_density_exponent ≤
      ((4463:ℝ)/5763) ^ ((183:ℝ)/43) :=
    Real.rpow_le_rpow_of_exponent_ge hr0 hr1 hq1
  have hmono2 : ((4463:ℝ)/5763) ^ ((166:ℝ)/39) ≤
      ((4463:ℝ)/5763) ^ isa_density_exponent :=
    Real.rpow_le_rpow_of_exponent_ge hr0 hr1 hq2
  have hup : ((4463:ℝ)/5763) ^ ((183:ℝ)/43) < 2064/6125 := by
    have ha : (((4463:ℝ)/5763) ^ ((183:ℝ)/43)) ^ (43:ℕ) =
        ((4463:ℝ)/5763) ^ (183:ℕ) := by
      rw [← Real.rpow_natCast (((4463:ℝ)/5763) ^ ((183:ℝ)/43)) 43,
        ← Real.rpow_mul hr0.le]
      norm_num
    refine lt_of_pow_lt_pow_left₀ 43 (by norm_num) ?_
    rw [ha]
    norm_num
  have hlo : (2063:ℝ)/6125 < ((4463:ℝ)/5763) ^ ((166:ℝ)/39) := by
    have ha : (((4463:ℝ)/5763) ^ ((166:ℝ)/39)) ^ (39:ℕ) =
        ((4463:ℝ)/5763) ^ (166:ℕ) := by
      rw [← Real.rpow_natCast (((4463:ℝ)/5763) ^ ((166:ℝ)/39)) 39,
        ← Real.rpow_mul hr0.le]
      norm_num
    refine lt_of_pow_lt_pow_left₀ 39 (Real.rpow_nonneg hr0.le _) ?_
    rw [ha]
    norm_num
  have hv : _calculate_aircraft_velocity 0.8 10000 =
      0.8 * Real.sqrt (179354581/2000) * 3.6 := by
    rw [_calculate_aircraft_velocity, speed_of_sound, hT]
    norm_num
  have hs1 : Real.sqrt ((179354581:ℝ)/2000) < 299.479 := by
    rw [Real.sqrt_lt' (by norm_num)]
    norm_num
  have hs2 : (299.445:ℝ) < Real.sqrt ((179354581:ℝ)/2000) := by
    rw [Real.lt_sqrt (by norm_num)]
    norm_num
  refine ⟨?_, ?_, ?_, ?_, ?_, ?_, ?_⟩
  · intro h hh
    rw [atmospheric_temperature, if_pos hh]
    ring
  · intro h hh
    rw [atmospheric_temperature, if_neg (not_lt.mpr hh)]
  · simpa [_calculate_atmospheric_conditions] using hT
  · have : (_calculate_atmospheric_conditions 10000).1 =
        atmospheric_density 10000 := rfl
    rw [this, hd]
    linarith [hlo, hmono2]
  · have : (_calculate_atmospheric_conditions 10000).1 =
        atmospheric_density 10000 := rfl
    rw [this, hd]
    linarith [hup, hmono1]
  · rw [hv]
    nlinarith [hs2]
  · rw [hv]
    nlinarith [hs1]

/-- C7 (witness): the piecewise temperature model evaluated on each
branch at a concrete altitude. -/
theorem atmosphere_isa_witness :
    atmospheric_temperature 0 = 15 - 6.5 * 0 / 1000 ∧
    atmospheric_temperature 12000 = -56.5 :=
  ⟨atmosphere_isa_and_documented_values.1 0 (by norm_num),
    atmosphere_isa_and_documented_values.2.1 12000 (by norm_num)⟩

end JetFuelBurn
